import Mathlib

/-!
Verification of the Callosum service supervisor and message fabric
(`src/frontend/desktop-app/src-tauri/src`).

Each Rust module is shallowly embedded as pure Lean functions over explicit
state; machine integers are modelled as `Nat` (no arithmetic here overflows),
`f64` trait strengths as `ℚ` (only order comparisons against `0.0` and `1.0`
are performed, which are exact on every non-NaN float), `Uuid` values as
`Nat` drawn fresh by the caller, and the wall clock as an explicit `now`
argument.  The 64-bit checksum (`DefaultHasher` in `memory.rs`) is an
arbitrary deterministic function of the bytes, so the development is
parameterised by it: every theorem holds for all checksum functions.
-/

namespace Callosum

/-! ## Memory subsystem (`memory.rs`) -/

/-- `MAX_INLINE_SIZE` (memory.rs line 9): 1KB threshold for inline vs shared memory. -/
def MAX_INLINE_SIZE : Nat := 1024

/-- `SHARED_MEMORY_TTL` (memory.rs line 10): 5 minutes TTL for shared memory blocks. -/
def SHARED_MEMORY_TTL : Nat := 300

/-- `MemoryError` (memory.rs lines 12-24).  Note the enum has no dedicated
corruption variant: the checksum-mismatch failure in `read_block` is the
`allocationError` constructor carrying the message "Data corruption detected". -/
inductive MemoryError where
  | blockNotFound (id : Nat)
  | blockExpired (id : Nat)
  | serializationError (msg : String)
  | allocationError (msg : String)
  | accessDenied (id : Nat)
deriving DecidableEq, Repr

/-- `SharedMemoryRef` (memory.rs lines 32-38). -/
structure SharedMemoryRef where
  block_id : Nat
  size : Nat
  checksum : Nat
  expires_at : Nat
deriving DecidableEq, Repr

/-- `SharedMemoryBlock` (memory.rs lines 59-66). -/
structure SharedMemoryBlock where
  data : List Nat
  created_at : Nat
  accessed_at : Nat
  access_count : Nat
  owner : String
deriving DecidableEq, Repr

/-- The `blocks` map of `SharedMemoryManager` (memory.rs line 69),
`HashMap<Uuid, SharedMemoryBlock>` as a lookup function. -/
abbrev Blocks := Nat → Option SharedMemoryBlock

/-- `HashMap::insert` on the blocks map. -/
def Blocks.insert (m : Blocks) (k : Nat) (v : SharedMemoryBlock) : Blocks :=
  fun q => if q = k then some v else m q

/-- The empty blocks map (`SharedMemoryManager::new`, memory.rs lines 74-83). -/
def Blocks.empty : Blocks := fun _ => none

/-- `SharedMemoryManager::allocate_block` (memory.rs lines 85-112).  The fresh
`Uuid::new_v4()` and the clock reading are passed in as `block_id` and `now`;
with the clock explicit the system-time error path cannot occur, so the
function returns the reference and the updated map directly. -/
def allocate_block (checksum : List Nat → Nat) (blocks : Blocks) (block_id : Nat)
    (now : Nat) (data : List Nat) (owner : String) : SharedMemoryRef × Blocks :=
  let block : SharedMemoryBlock :=
    { data := data, created_at := now, accessed_at := now,
      access_count := 0, owner := owner }
  ({ block_id := block_id, size := data.length, checksum := checksum data,
     expires_at := now + SHARED_MEMORY_TTL },
   blocks.insert block_id block)

/-- `SharedMemoryManager::read_block` (memory.rs lines 114-139): expiry check
before any lookup, then lookup, then checksum verification, then the
access-stats update and the returned copy of the bytes. -/
def read_block (checksum : List Nat → Nat) (blocks : Blocks)
    (block_ref : SharedMemoryRef) (now : Nat) :
    Except MemoryError (List Nat) × Blocks :=
  if block_ref.expires_at < now then
    (.error (.blockExpired block_ref.block_id), blocks)
  else
    match blocks block_ref.block_id with
    | none => (.error (.blockNotFound block_ref.block_id), blocks)
    | some block =>
      if checksum block.data ≠ block_ref.checksum then
        (.error (.allocationError "Data corruption detected"), blocks)
      else
        (.ok block.data,
         blocks.insert block_ref.block_id
           { block with accessed_at := now, access_count := block.access_count + 1 })

/-- `MessageData` (memory.rs lines 26-30). -/
inductive MessageData where
  | inline (data : List Nat)
  | sharedRef (r : SharedMemoryRef)
deriving DecidableEq, Repr

/-- `MessagePriority` (memory.rs lines 51-57). -/
inductive MessagePriority where
  | low
  | normal
  | high
  | critical
deriving DecidableEq, Repr

/-- `Message` (memory.rs lines 40-49). -/
structure Message where
  id : Nat
  sender : String
  recipient : String
  method : String
  data : MessageData
  timestamp : Nat
  priority : MessagePriority
deriving DecidableEq, Repr

/-- `MessagePassingSystem::create_message` (memory.rs lines 228-260).  The
fresh message id, the fresh block id used on the shared path, and the clock
are explicit arguments. -/
def create_message (checksum : List Nat → Nat) (blocks : Blocks)
    (message_id block_id : Nat) (sender recipient method : String)
    (data : List Nat) (priority : MessagePriority) (now : Nat) :
    Message × Blocks :=
  let framed : MessageData × Blocks :=
    if MAX_INLINE_SIZE < data.length then
      let ab := allocate_block checksum blocks block_id now data sender
      (.sharedRef ab.1, ab.2)
    else
      (.inline data, blocks)
  ({ id := message_id, sender := sender, recipient := recipient,
     method := method, data := framed.1, timestamp := now,
     priority := priority },
   framed.2)

end Callosum

namespace Callosum

/-! ## Claims about the memory subsystem -/

/-- C1: for every byte sequence `b`, the message built by `create_message`
carries `data = Inline b` iff `|b| ≤ 1024`; otherwise its data is a
`SharedRef` to a freshly allocated shared buffer (the referenced block id was
unused before the call and holds `b` afterwards). -/
theorem create_message_framing (checksum : List Nat → Nat) (blocks : Blocks)
    (mid bid : Nat) (sender recipient method : String) (b : List Nat)
    (p : MessagePriority) (now : Nat) (hfresh : blocks bid = none) :
    ((create_message checksum blocks mid bid sender recipient method b p now).1.data
        = .inline b ↔ b.length ≤ 1024) ∧
    (1024 < b.length →
      (create_message checksum blocks mid bid sender recipient method b p now).1.data
          = .sharedRef
              { block_id := bid, size := b.length, checksum := checksum b,
                expires_at := now + 300 } ∧
      blocks bid = none ∧
      (create_message checksum blocks mid bid sender recipient method b p now).2 bid
          = some { data := b, created_at := now, accessed_at := now,
                   access_count := 0, owner := sender }) := by
  by_cases h : 1024 < b.length
  · refine ⟨⟨fun hinl => ?_, fun hle => absurd hle (by omega)⟩,
      fun _ => ⟨?_, hfresh, ?_⟩⟩
    · simp only [create_message, allocate_block, MAX_INLINE_SIZE, if_pos h] at hinl
      exact MessageData.noConfusion hinl
    · simp only [create_message, allocate_block, MAX_INLINE_SIZE, if_pos h,
        SHARED_MEMORY_TTL]
    · simp [create_message, allocate_block, MAX_INLINE_SIZE, if_pos h,
        Blocks.insert]
  · have hle : b.length ≤ 1024 := by omega
    refine ⟨⟨fun _ => hle, fun _ => ?_⟩, fun hgt => absurd hgt h⟩
    simp only [create_message, MAX_INLINE_SIZE, if_neg h]

/-- Witness for C1 at a concrete input: the empty map, block id `0`, a
3-byte payload (inlined). -/
theorem create_message_framing_witness :
    Blocks.empty 0 = none ∧
    ((create_message (fun l => l.length) Blocks.empty 7 0 "s" "r" "m"
        [1, 2, 3] .normal 100).1.data = .inline [1, 2, 3] ↔
      ([1, 2, 3] : List Nat).length ≤ 1024) :=
  ⟨rfl, (create_message_framing (fun l => l.length) Blocks.empty 7 0 "s" "r" "m"
      [1, 2, 3] .normal 100 rfl).1⟩

/-- C2: round-trip.  Allocating `b` and reading the returned reference back
while `now ≤ ref.expires_at` (and the block still stored) yields exactly `b`;
the checksum recorded in the reference equals the checksum of the stored
bytes, and `ref.size = |b|`. -/
theorem allocate_read_roundtrip (checksum : List Nat → Nat) (blocks : Blocks)
    (bid now₁ now₂ : Nat) (b : List Nat) (owner : String)
    (h : now₂ ≤ (allocate_block checksum blocks bid now₁ b owner).1.expires_at) :
    (read_block checksum (allocate_block checksum blocks bid now₁ b owner).2
        (allocate_block checksum blocks bid now₁ b owner).1 now₂).1 = .ok b ∧
    (allocate_block checksum blocks bid now₁ b owner).1.checksum = checksum b ∧
    (allocate_block checksum blocks bid now₁ b owner).1.size = b.length := by
  refine ⟨?_, rfl, rfl⟩
  have h' : now₂ ≤ now₁ + SHARED_MEMORY_TTL := h
  have hcond : ¬ (now₁ + SHARED_MEMORY_TTL < now₂) := by omega
  simp [read_block, allocate_block, Blocks.insert, hcond]

/-- Witness for C2 at a concrete input: allocate `[9, 8]` at time 50 and read
it back at time 60 (within the 300-second TTL). -/
theorem allocate_read_roundtrip_witness :
    (60 ≤ (allocate_block (fun l => l.length) Blocks.empty 4 50 [9, 8] "o").1.expires_at) ∧
    (read_block (fun l => l.length)
        (allocate_block (fun l => l.length) Blocks.empty 4 50 [9, 8] "o").2
        (allocate_block (fun l => l.length) Blocks.empty 4 50 [9, 8] "o").1 60).1
      = .ok [9, 8] :=
  ⟨by decide,
   (allocate_read_roundtrip (fun l => l.length) Blocks.empty 4 50 60 [9, 8] "o"
      (by decide)).1⟩

/-- C7: `read_block` fails with pairwise-distinct errors checked in this
order: `BlockExpired` as soon as `now > ref.expires_at` (before any lookup,
whatever the map holds), then `BlockNotFound` when no block is stored under
`ref.block_id`, then the corruption failure
(`AllocationError "Data corruption detected"`) when the recomputed checksum
disagrees with `ref.checksum`; only otherwise does it set `accessed_at`,
increment `access_count`, and return the stored bytes.  In every failure case
the map is untouched. -/
theorem read_block_error_order (checksum : List Nat → Nat) (blocks : Blocks)
    (r : SharedMemoryRef) (now : Nat) :
    (r.expires_at < now →
      read_block checksum blocks r now = (.error (.blockExpired r.block_id), blocks)) ∧
    (now ≤ r.expires_at → blocks r.block_id = none →
      read_block checksum blocks r now = (.error (.blockNotFound r.block_id), blocks)) ∧
    (∀ block, now ≤ r.expires_at → blocks r.block_id = some block →
      checksum block.data ≠ r.checksum →
      read_block checksum blocks r now
        = (.error (.allocationError "Data corruption detected"), blocks)) ∧
    (∀ block, now ≤ r.expires_at → blocks r.block_id = some block →
      checksum block.data = r.checksum →
      read_block checksum blocks r now
        = (.ok block.data,
           blocks.insert r.block_id
             { block with accessed_at := now,
                          access_count := block.access_count + 1 })) ∧
    (MemoryError.blockExpired r.block_id ≠ .blockNotFound r.block_id ∧
     MemoryError.blockExpired r.block_id ≠ .allocationError "Data corruption detected" ∧
     MemoryError.blockNotFound r.block_id ≠ .allocationError "Data corruption detected") := by
  refine ⟨fun hexp => ?_, fun hle hnone => ?_, fun block hle hsome hbad => ?_,
    fun block hle hsome hgood => ?_, by simp, by simp, by simp⟩
  · simp [read_block, hexp]
  · simp [read_block, Nat.not_lt.mpr hle, hnone]
  · simp [read_block, Nat.not_lt.mpr hle, hsome, hbad]
  · simp [read_block, Nat.not_lt.mpr hle, hsome, hgood]

/-- Witness for C7: concrete instances of all four branches.  `ref` points at
block id `4` with claimed checksum `2`, the map holds `[9, 8]` there (length
checksum `2`), and `badref` claims checksum `5` for the same block. -/
theorem read_block_error_order_witness :
    (read_block (fun l => l.length)
        (Blocks.empty.insert 4 { data := [9, 8], created_at := 50, accessed_at := 50,
                                 access_count := 0, owner := "o" })
        { block_id := 4, size := 2, checksum := 2, expires_at := 350 } 351
      = (.error (.blockExpired 4),
         Blocks.empty.insert 4 { data := [9, 8], created_at := 50, accessed_at := 50,
                                 access_count := 0, owner := "o" })) ∧
    (read_block (fun l => l.length) Blocks.empty
        { block_id := 4, size := 2, checksum := 2, expires_at := 350 } 60
      = (.error (.blockNotFound 4), Blocks.empty)) ∧
    (read_block (fun l => l.length)
        (Blocks.empty.insert 4 { data := [9, 8], created_at := 50, accessed_at := 50,
                                 access_count := 0, owner := "o" })
        { block_id := 4, size := 2, checksum := 5, expires_at := 350 } 60
      = (.error (.allocationError "Data corruption detected"),
         Blocks.empty.insert 4 { data := [9, 8], created_at := 50, accessed_at := 50,
                                 access_count := 0, owner := "o" })) ∧
    (read_block (fun l => l.length)
        (Blocks.empty.insert 4 { data := [9, 8], created_at := 50, accessed_at := 50,
                                 access_count := 0, owner := "o" })
        { block_id := 4, size := 2, checksum := 2, expires_at := 350 } 60
      = (.ok [9, 8],
         (Blocks.empty.insert 4 { data := [9, 8], created_at := 50, accessed_at := 50,
                                  access_count := 0, owner := "o" }).insert 4
           { data := [9, 8], created_at := 50, accessed_at := 60,
             access_count := 1, owner := "o" })) :=
  ⟨(read_block_error_order (fun l => l.length)
      (Blocks.empty.insert 4 { data := [9, 8], created_at := 50, accessed_at := 50,
                               access_count := 0, owner := "o" })
      { block_id := 4, size := 2, checksum := 2, expires_at := 350 } 351).1
      (by decide),
   (read_block_error_order (fun l => l.length) Blocks.empty
      { block_id := 4, size := 2, checksum := 2, expires_at := 350 } 60).2.1
      (by decide) rfl,
   (read_block_error_order (fun l => l.length)
      (Blocks.empty.insert 4 { data := [9, 8], created_at := 50, accessed_at := 50,
                               access_count := 0, owner := "o" })
      { block_id := 4, size := 2, checksum := 5, expires_at := 350 } 60).2.2.1
      _ (by decide) rfl (by decide),
   (read_block_error_order (fun l => l.length)
      (Blocks.empty.insert 4 { data := [9, 8], created_at := 50, accessed_at := 50,
                               access_count := 0, owner := "o" })
      { block_id := 4, size := 2, checksum := 2, expires_at := 350 } 60).2.2.2.1
      _ (by decide) rfl (by decide)⟩

/-! ## Process supervisor (`types.rs`, `process.rs`) -/

/-- `RestartPolicy` (types.rs lines 16-21). -/
inductive RestartPolicy where
  | never
  | always
  | onFailure
deriving DecidableEq, Repr

/-- `ServiceStatus` (types.rs lines 23-30). -/
inductive ServiceStatus where
  | stopped
  | starting
  | running
  | failed
  | restarting
deriving DecidableEq, Repr

/-- `ServiceConfig` (types.rs lines 5-14). -/
structure ServiceConfig where
  name : String
  path : String
  args : List String
  port : Option Nat
  health_endpoint : Option String
  startup_timeout : Nat
  restart_policy : RestartPolicy
deriving DecidableEq, Repr

/-- `ServiceState` (types.rs lines 32-41). -/
structure ServiceState where
  id : Nat
  config : ServiceConfig
  status : ServiceStatus
  pid : Option Nat
  start_time : Option Nat
  restart_count : Nat
  last_error : Option String
deriving DecidableEq, Repr

/-- `ServiceRegistry` (types.rs line 69), `HashMap<String, ServiceState>`
as a lookup function. -/
abbrev ServiceRegistry := String → Option ServiceState

/-- `HashMap::insert` on the registry. -/
def ServiceRegistry.insert (m : ServiceRegistry) (k : String) (v : ServiceState) :
    ServiceRegistry :=
  fun q => if q = k then some v else m q

/-- The observable part of a `std::process::Child`: its OS pid (`child.id()`
is the only accessor the supervisor uses). -/
structure Child where
  pid : Nat
deriving DecidableEq, Repr

/-- The `processes` map of `LocalProcessManager` (process.rs line 25). -/
abbrev ProcessMap := String → Option Child

/-- `HashMap::insert` on the process map. -/
def ProcessMap.insert (m : ProcessMap) (k : String) (v : Child) : ProcessMap :=
  fun q => if q = k then some v else m q

/-- `HashMap::remove` on the process map. -/
def ProcessMap.remove (m : ProcessMap) (k : String) : ProcessMap :=
  fun q => if q = k then none else m q

/-- The two maps of `LocalProcessManager` (process.rs lines 23-26). -/
structure SupState where
  services : ServiceRegistry
  processes : ProcessMap

/-- `LocalProcessManager::new` (process.rs lines 29-34). -/
def SupState.empty : SupState :=
  ⟨fun _ => none, fun _ => none⟩

/-- Outcome of `spawn_process` (process.rs lines 83-99): the OS either
delivers a child (whose pid the supervisor records) or a spawn error. -/
inductive SpawnOutcome where
  | ok (pid : Nat)
  | err (msg : String)
deriving DecidableEq, Repr

/-- `LocalProcessManager::update_service_status` (process.rs lines 101-115):
sets the status of a registered service and stamps `start_time = now` exactly
when the new status is `Running`; does nothing for an unknown name. -/
def update_service_status (s : SupState) (name : String) (status : ServiceStatus)
    (now : Nat) : SupState :=
  match s.services name with
  | none => s
  | some service =>
    let service' : ServiceState :=
      { service with
          status := status,
          start_time := if status = .running then some now else service.start_time }
    { s with services := s.services.insert name service' }

/-- `LocalProcessManager::register_service` (process.rs lines 119-134): builds
a fresh `ServiceState` (fresh identity `fresh_id`, status `Stopped`, no pid,
no start time, zero restarts) and inserts it under `config.name`
unconditionally, returning `Ok(())`. -/
def register_service (s : SupState) (config : ServiceConfig) (fresh_id : Nat) :
    Except String Unit × SupState :=
  let fresh : ServiceState :=
    { id := fresh_id, config := config, status := .stopped, pid := none,
      start_time := none, restart_count := 0, last_error := none }
  (.ok (), { s with services := s.services.insert config.name fresh })

/-- `LocalProcessManager::start_service` (process.rs lines 136-176).  The
spawn result is the explicit `spawn` argument.  On success the code inserts
the child, then mutates the registry entry directly (`pid = Some(pid)`,
`status = Running`) and returns `services.get(name).unwrap().id`; the
`unwrap` cannot fail there because the name was found at entry, but to keep
the function total the impossible branch returns an error. -/
def start_service (s : SupState) (name : String) (spawn : SpawnOutcome)
    (now : Nat) : Except String Nat × SupState :=
  match s.services name with
  | none => (.error ("Service not found: " ++ name), s)
  | some _ =>
    let s₁ := update_service_status s name .starting now
    match spawn with
    | .ok pid =>
      let s₂ := { s₁ with processes := s₁.processes.insert name ⟨pid⟩ }
      let s₃ :=
        match s₂.services name with
        | none => s₂
        | some service =>
          let service' : ServiceState :=
            { service with pid := some pid, status := .running }
          { s₂ with services := s₂.services.insert name service' }
      match s₃.services name with
      | some service => (.ok service.id, s₃)
      | none => (.error "unreachable: service vanished", s₃)
    | .err e =>
      let s₂ := update_service_status s₁ name .failed now
      let s₃ :=
        match s₂.services name with
        | none => s₂
        | some service =>
          let service' : ServiceState := { service with last_error := some e }
          { s₂ with services := s₂.services.insert name service' }
      (.error e, s₃)

/-- `LocalProcessManager::stop_service` (process.rs lines 178-187): if a
child is tracked it is killed and removed (kill errors are not modelled —
no claim exercises a failing kill), then the status is set to `Stopped` via
`update_service_status`.  The service's `pid` field is never touched. -/
def stop_service (s : SupState) (name : String) (now : Nat) :
    Except String Unit × SupState :=
  let s₁ :=
    match s.processes name with
    | some _ => { s with processes := s.processes.remove name }
    | none => s
  (.ok (), update_service_status s₁ name .stopped now)

/-- The config used in the concrete supervisor scenarios (spec §8 scenario 1
shape). -/
def cfgX : ServiceConfig :=
  { name := "x", path := "/bin/sleep", args := ["1"], port := none,
    health_endpoint := none, startup_timeout := 30, restart_policy := .always }

/-- Supervisor state after registering `cfgX` with identity 11. -/
def supAfterRegister : SupState := (register_service SupState.empty cfgX 11).2

/-- Supervisor state after then starting `"x"` with a successful spawn
delivering pid 42 at time 1000. -/
def supAfterStart : SupState := (start_service supAfterRegister "x" (.ok 42) 1000).2

/-- Supervisor state after then stopping `"x"` at time 1001. -/
def supAfterStop : SupState := (stop_service supAfterStart "x" 1001).2

/-- C3: evaluating `start_service` on a registered service with a successful
spawn.  The call records the pid, sets the status to `Running`, tracks the
child, and returns the identity — but `start_time` remains `none`: the
success path writes `pid` and `status` directly into the registry and never
invokes the `Running` branch of `update_service_status`, so the claimed
"sets start_time" does not happen. -/
theorem start_service_success_no_start_time :
    (start_service supAfterRegister "x" (.ok 42) 1000).1 = .ok 11 ∧
    supAfterStart.services "x"
      = some { id := 11, config := cfgX, status := .running, pid := some 42,
               start_time := none, restart_count := 0, last_error := none } ∧
    supAfterStart.processes "x" = some ⟨42⟩ :=
  ⟨rfl, by decide, by decide⟩

/-- C4: evaluating `stop_service` on the running service from the C3
scenario.  The child record is removed and the status becomes `Stopped`, but
`pid` keeps its old value `some 42`, so the claimed invariant
`pid.is_some() ⇔ status = Running` fails after `stop` (the claim says
`pid = None` there). -/
theorem stop_service_leaves_pid :
    supAfterStop.services "x"
      = some { id := 11, config := cfgX, status := .stopped, pid := some 42,
               start_time := none, restart_count := 0, last_error := none } ∧
    supAfterStop.processes "x" = none :=
  ⟨by decide, by decide⟩

/-- Counterexample for C8: registering a config whose name is already a key
of the registry does not fail — it returns `Ok(())` and replaces the existing
`ServiceState` (the identity changes from 5 to 9). -/
theorem register_service_overwrites :
    (register_service (register_service SupState.empty cfgX 5).2 cfgX 9).1 = .ok () ∧
    (register_service SupState.empty cfgX 5).2.services "x"
      = some { id := 5, config := cfgX, status := .stopped, pid := none,
               start_time := none, restart_count := 0, last_error := none } ∧
    (register_service (register_service SupState.empty cfgX 5).2 cfgX 9).2.services "x"
      = some { id := 9, config := cfgX, status := .stopped, pid := none,
               start_time := none, restart_count := 0, last_error := none } :=
  ⟨rfl, by decide, by decide⟩

/-- C8 (amended): `register_service` always succeeds; it binds `config.name`
to a fresh `ServiceState` (fresh identity, status `Stopped`, `pid = None`,
`restart_count = 0`), replacing any existing entry for that name, and leaves
every other name unchanged. -/
theorem register_service_upsert (s : SupState) (config : ServiceConfig)
    (fresh_id : Nat) :
    (register_service s config fresh_id).1 = .ok () ∧
    (register_service s config fresh_id).2.services config.name
      = some { id := fresh_id, config := config, status := .stopped, pid := none,
               start_time := none, restart_count := 0, last_error := none } ∧
    (∀ n, n ≠ config.name → (register_service s config fresh_id).2.services n
      = s.services n) ∧
    (register_service s config fresh_id).2.processes = s.processes := by
  refine ⟨rfl, ?_, fun n hn => ?_, rfl⟩
  · simp [register_service, ServiceRegistry.insert]
  · simp [register_service, ServiceRegistry.insert, hn]

/-- Witness for C8's amended theorem: registering `cfgX` into the empty
registry succeeds, binds `"x"`, and leaves `"y"` unbound. -/
theorem register_service_upsert_witness :
    (register_service SupState.empty cfgX 9).1 = .ok () ∧
    (register_service SupState.empty cfgX 9).2.services "y"
      = SupState.empty.services "y" :=
  ⟨(register_service_upsert SupState.empty cfgX 9).1,
   (register_service_upsert SupState.empty cfgX 9).2.2.1 "y" (by decide)⟩

/-- C10: `stop_service` on a name that is neither registered nor tracked in
the child map returns `Ok(())` and leaves the whole state unchanged (the
absent child is skipped, and `update_service_status` is a no-op for an
unknown name). -/
theorem stop_service_unknown_noop (s : SupState) (name : String) (now : Nat)
    (hreg : s.services name = none) (hproc : s.processes name = none) :
    stop_service s name now = (.ok (), s) := by
  simp [stop_service, update_service_status, hreg, hproc]

/-- Witness for C10: stopping the unregistered name `"ghost"` in the empty
supervisor state. -/
theorem stop_service_unknown_noop_witness :
    stop_service SupState.empty "ghost" 0 = (.ok (), SupState.empty) :=
  stop_service_unknown_noop SupState.empty "ghost" 0 rfl rfl

/-! ## IPC router (`ipc.rs`)

`send_message` inserts the request id into the pending map, calls
`forward_to_service` (which performs the HTTP round trip and, on every HTTP
outcome, delivers an `IpcResponse` into the per-request channel via
`send_response`), then waits on the channel with a 30-second timeout.  The
embedding keeps the pending map as the list of in-flight ids, abstracts the
per-request single-slot channel as the `Option IpcResponse` that
`forward_to_service` delivered, and takes the HTTP outcome as an explicit
argument. -/

/-- `IpcMessage` (types.rs lines 52-59); the JSON payload is kept opaque. -/
structure IpcMessage where
  id : Nat
  service : String
  method : String
  payload : String
  timestamp : Nat
deriving DecidableEq, Repr

/-- `IpcResponse` (types.rs lines 61-67); JSON data kept opaque. -/
structure IpcResponse where
  request_id : Nat
  success : Bool
  data : Option String
  error : Option String
deriving DecidableEq, Repr

/-- The state of `IpcManager` (ipc.rs lines 12-15): the ids present in
`pending_requests` and the keys of `service_clients` (the `reqwest::Client`
values carry no state the router observes). -/
structure IpcState where
  pending : List Nat
  clients : List String
deriving DecidableEq, Repr

/-- Outcome of the `client.post(..).send().await` round trip in
`forward_to_service` (ipc.rs lines 74-118): a 2xx reply whose body parses as
JSON, a 2xx reply with an unparsable body, a non-2xx status, or a transport
error. -/
inductive HttpOutcome where
  | ok2xxJson (data : String)
  | ok2xxBadJson (msg : String)
  | non2xx (statusText : String)
  | transportErr (msg : String)
deriving DecidableEq, Repr

/-- The client keys inserted by `IpcManager` setup (ipc.rs lines 25-36). -/
def initClients : List String :=
  ["ai-engine", "dsl-parser", "graph-engine", "event-processor"]

/-- `IpcManager::send_response` (ipc.rs lines 123-129): delivers the response
into the channel of the matching pending request, if one exists. -/
def send_response (st : IpcState) (response : IpcResponse) : Option IpcResponse :=
  if st.pending.contains response.request_id then some response else none

/-- `IpcManager::forward_to_service` (ipc.rs lines 60-121): fails early when
no client is registered for the target service; every HTTP outcome is
converted into an `IpcResponse` and delivered via `send_response`, after
which the function returns `Ok(())` — the delivered response is the
`Option IpcResponse` payload here. -/
def forward_to_service (st : IpcState) (message : IpcMessage)
    (outcome : HttpOutcome) : Except String (Option IpcResponse) :=
  if st.clients.contains message.service then
    match outcome with
    | .ok2xxJson d =>
      .ok (send_response st
        { request_id := message.id, success := true, data := some d, error := none })
    | .ok2xxBadJson e =>
      .ok (send_response st
        { request_id := message.id, success := false, data := none,
          error := some ("Failed to parse response: " ++ e) })
    | .non2xx statusText =>
      .ok (send_response st
        { request_id := message.id, success := false, data := none,
          error := some ("Service returned error: " ++ statusText) })
    | .transportErr e =>
      .ok (send_response st
        { request_id := message.id, success := false, data := none,
          error := some e })
  else
    .error ("Service client not found: " ++ message.service)

/-- `IpcManager::send_message` (ipc.rs lines 38-58): inserts the pending
entry, forwards, then selects between the channel and the 30-second timer.
An error from `forward_to_service` propagates with `?` — before the select,
so without removing the pending entry.  In this sequential model the channel
already holds a response whenever `forward_to_service` returned `Ok` (it
always delivers one), so the timeout branch fires exactly when no response
was delivered; both select branches remove the entry. -/
def send_message (st : IpcState) (message : IpcMessage) (outcome : HttpOutcome) :
    Except String IpcResponse × IpcState :=
  let st₁ : IpcState := { st with pending := message.id :: st.pending }
  match forward_to_service st₁ message outcome with
  | .error e => (.error e, st₁)
  | .ok (some response) =>
    (.ok response, { st₁ with pending := st₁.pending.erase message.id })
  | .ok none =>
    (.error "Request timeout", { st₁ with pending := st₁.pending.erase message.id })

/-- C5: the pending-map entry is **not** removed on every error path out of
`send_message`.  For a service with no registered client,
`forward_to_service` fails before the select and the `?` propagation leaves
the freshly inserted entry in the map forever, while a request to a known
service has its entry removed when the response arrives. -/
theorem send_message_pending_leak :
    (send_message ⟨[], initClients⟩ ⟨7, "unknown", "m", "p", 0⟩ (.transportErr "")).1
      = .error "Service client not found: unknown" ∧
    (send_message ⟨[], initClients⟩ ⟨7, "unknown", "m", "p", 0⟩ (.transportErr "")).2.pending
      = [7] ∧
    (send_message ⟨[], initClients⟩ ⟨8, "ai-engine", "m", "p", 0⟩ (.ok2xxJson "d")).1
      = .ok ⟨8, true, some "d", none⟩ ∧
    (send_message ⟨[], initClients⟩ ⟨8, "ai-engine", "m", "p", 0⟩ (.ok2xxJson "d")).2.pending
      = [] :=
  ⟨rfl, by decide, rfl, by decide⟩

/-! ## Health monitor (`health.rs`)

Only the start/stop monitoring control state is relevant to C6: the
`monitoring_active` flag of `HttpHealthChecker` plus the number of
`monitoring_loop` tasks currently alive.  `start_monitoring` (lines 179-193)
sets the flag and then **unconditionally** spawns a `monitoring_loop` task —
there is no check whether a loop is already running.  `monitoring_loop`
(lines 77-105) re-reads the flag on every 30-second tick and breaks when it
is false. -/

/-- Monitoring control state: the `monitoring_active` flag and the number of
live `monitoring_loop` tasks. -/
structure HealthMonState where
  monitoring_active : Bool
  loops : Nat
deriving DecidableEq, Repr

/-- `HttpHealthChecker::start_monitoring` (health.rs lines 179-193): set the
flag, clone the checker, and spawn one more `monitoring_loop` task. -/
def start_monitoring (s : HealthMonState) : HealthMonState :=
  { monitoring_active := true, loops := s.loops + 1 }

/-- `HttpHealthChecker::stop_monitoring` (health.rs lines 195-198): clear the
flag; the loops exit on their own at their next tick. -/
def stop_monitoring (s : HealthMonState) : HealthMonState :=
  { s with monitoring_active := false }

/-- One 30-second tick of every live `monitoring_loop` (health.rs lines
80-86): each loop re-reads `monitoring_active` and breaks when it is false;
when it is true all loops keep running (and do a health-check cycle). -/
def monitor_tick (s : HealthMonState) : HealthMonState :=
  if s.monitoring_active then s else { s with loops := 0 }

/-- C6: calling `start()` twice spawns **two** monitoring loops — the code
has no already-active guard, so a second `start_monitoring` is not
idempotent (the claim says at most one loop ever runs).  The second part of
the claim does hold: after `stop()`, every loop exits at its next tick. -/
theorem start_monitoring_double_spawn :
    (start_monitoring (start_monitoring ⟨false, 0⟩)).loops = 2 ∧
    ¬ (start_monitoring (start_monitoring ⟨false, 0⟩)).loops ≤ 1 ∧
    (monitor_tick (stop_monitoring
        (start_monitoring (start_monitoring ⟨false, 0⟩)))).loops = 0 := by
  decide

/-! ## Embedded-runtime bridge (`bridge.rs`)

`f64` trait strengths are modelled as `ℚ`: `validate_personality` only does
the exact order comparisons `strength < 0.0` and `strength > 1.0` on them. -/

/-- `BridgeError` (bridge.rs lines 13-23).  `runtimeNotReady` renders the
source's `RuntimeNotInitialized` variant ("OCaml runtime not initialized"). -/
inductive BridgeError where
  | runtimeNotReady
  | executionError (msg : String)
  | serializationError (msg : String)
  | ffiError (msg : String)
deriving DecidableEq, Repr

/-- `TraitData` (bridge.rs lines 42-47). -/
structure TraitData where
  name : String
  strength : ℚ
  modifiers : List String
deriving DecidableEq, Repr

/-- `TopicData` (bridge.rs lines 56-60). -/
structure TopicData where
  name : String
  level : String
deriving DecidableEq, Repr

/-- `ConnectionData` (bridge.rs lines 62-67). -/
structure ConnectionData where
  from_domain : String
  to_domain : String
  strength : ℚ
deriving DecidableEq, Repr

/-- `KnowledgeDomain` (bridge.rs lines 49-54). -/
structure KnowledgeDomain where
  name : String
  topics : List TopicData
  connections : List ConnectionData
deriving DecidableEq, Repr

/-- `BehaviorRule` (bridge.rs lines 69-73). -/
structure BehaviorRule where
  condition : String
  action : String
deriving DecidableEq, Repr

/-- `EvolutionRule` (bridge.rs lines 75-79). -/
structure EvolutionRule where
  trigger : String
  effect : String
deriving DecidableEq, Repr

/-- `PersonalityData` (bridge.rs lines 33-40). -/
structure PersonalityData where
  name : String
  traits : List TraitData
  knowledge : List KnowledgeDomain
  behaviors : List BehaviorRule
  evolution : List EvolutionRule
deriving DecidableEq, Repr

/-- The observable state of `OcamlBridge` (bridge.rs lines 112-114): the
local `initialized` flag (the bridge's constructor codename for the OCaml
runtime latch is irrelevant to the validator, which makes no foreign call). -/
structure OcamlBridge where
  inited : Bool
deriving DecidableEq, Repr

/-- The out-of-range test in `validate_personality` (bridge.rs line 302):
`trait_data.strength < 0.0 || trait_data.strength > 1.0`. -/
def out_of_range (t : TraitData) : Bool :=
  decide (t.strength < 0) || decide (t.strength > 1)

/-- The warning `format!` string of bridge.rs line 303. -/
def trait_warning (t : TraitData) : String :=
  "Trait " ++ t.name ++ " has invalid strength: " ++ toString t.strength

/-- `OcamlBridge::validate_personality` (bridge.rs lines 289-308): fails with
`RuntimeNotInitialized` when the flag is down; otherwise a purely local
computation (no foreign call is made) pushing one warning for an empty name
and one per out-of-range trait, in trait order. -/
def validate_personality (bridge : OcamlBridge) (personality : PersonalityData) :
    Except BridgeError (List String) :=
  if !bridge.inited then
    .error .runtimeNotReady
  else
    let warnings : List String :=
      if personality.name = "" then ["Personality name is empty"] else []
    .ok (personality.traits.foldl
      (fun w t => if out_of_range t then w ++ [trait_warning t] else w) warnings)

/-- Pushing into an accumulator under a filter is `filter` + `map`. -/
theorem foldl_push_eq_filter_map {α : Type} (f : α → String) (p : α → Bool)
    (l : List α) (acc : List String) :
    l.foldl (fun w t => if p t then w ++ [f t] else w) acc
      = acc ++ (l.filter p).map f := by
  induction l generalizing acc with
  | nil => simp
  | cons t l ih =>
    by_cases h : p t
    · simp [h, ih, List.append_assoc]
    · simp [h, ih]

/-- C9: with the bridge flag up, `validate_personality` succeeds and returns
exactly one warning for an empty name plus, for each trait whose strength is
outside `[0, 1]`, one warning naming the trait and its strength (in trait
order); in particular a personality with a non-empty name and all strengths
in range yields the empty warnings list. -/
theorem validate_personality_warnings (bridge : OcamlBridge)
    (personality : PersonalityData) (h : bridge.inited = true) :
    validate_personality bridge personality
      = .ok ((if personality.name = "" then ["Personality name is empty"] else [])
          ++ (personality.traits.filter out_of_range).map trait_warning) ∧
    (personality.name ≠ "" →
      (∀ t ∈ personality.traits, out_of_range t = false) →
      validate_personality bridge personality = .ok []) := by
  constructor
  · simp [validate_personality, h, foldl_push_eq_filter_map]
  · intro hname hall
    have hfil : personality.traits.filter out_of_range = [] :=
      List.filter_eq_nil_iff.mpr (by simpa using hall)
    simp [validate_personality, h, foldl_push_eq_filter_map, hname, hfil]

/-- Witness for C9: the spec §8 scenario-7 shape — empty name and one trait
of strength 2 gives the two warnings; non-empty name with strength 1 gives
none. -/
theorem validate_personality_warnings_witness :
    validate_personality ⟨true⟩
        { name := "", traits := [{ name := "t", strength := 2, modifiers := [] }],
          knowledge := [], behaviors := [], evolution := [] }
      = .ok ["Personality name is empty", "Trait t has invalid strength: 2"] ∧
    validate_personality ⟨true⟩
        { name := "Test", traits := [{ name := "t", strength := 1, modifiers := [] }],
          knowledge := [], behaviors := [], evolution := [] }
      = .ok [] :=
  ⟨(validate_personality_warnings ⟨true⟩
      { name := "", traits := [{ name := "t", strength := 2, modifiers := [] }],
        knowledge := [], behaviors := [], evolution := [] } rfl).1.trans (by rfl),
   (validate_personality_warnings ⟨true⟩
      { name := "Test", traits := [{ name := "t", strength := 1, modifiers := [] }],
        knowledge := [], behaviors := [], evolution := [] } rfl).2
      (by decide) (by decide)⟩

end Callosum
